import Mathlib

/-!
Verification development for the replicate-video-ai asynchronous video
generation server.  The Go sources are shallowly embedded below:

* `pkg/types/types.go`          — status constants, prediction shape
* `pkg/client` (replicate.go)   — `CreatePrediction`, `WaitForCompletion`
* `pkg/storage/storage.go`      — `GenerateStorageID`, `SaveVideoFromURL`,
                                  `SaveMetadata`, `LoadMetadata`
* `generation` package          — `GenerateTextToVideo`, `ContinueGeneration`
* `handler` package             — `handleContinueOperation`,
                                  `findStorageIDForPrediction`

Go `interface{}` values decoded from JSON are modelled by `Val`; Go `error`
values are modelled by the message string they carry (all the errors below
are built with non-wrapping `fmt.Errorf`, whose result is a
`*errors.errorString`), plus an explicit dynamic-type field where a claim
is about error types.  External effects (HTTP polls, artifact downloads,
metadata files) are threaded through an explicit `World` state so that
"how many downloads happened" and "which records were written" are
provable facts.
-/

namespace ReplicateVideo

/-- A JSON-decoded Go `interface{}` value: `string`, `float64` (restricted
to the integral values that occur in this code base), `bool`,
`map[string]interface \x7b\x7d`, `[]interface \x7b\x7d` or `nil`. -/
inductive Val where
  | str (s : String)
  | num (n : Int)
  | bool (b : Bool)
  | obj (fields : List (String × Val))
  | arr (elems : List Val)
  | nul

/-- A Go `map[string]interface \x7b\x7d` (insertion-ordered association list;
Go map iteration order is irrelevant to every fact proved below). -/
abbrev Meta := List (String × Val)

/-- Go map read `m[k]` returning the comma-ok presence bit as `Option`. -/
def lookupKey (k : String) : Meta → Option Val
  | [] => none
  | (k', v) :: rest => if k' = k then some v else lookupKey k rest

/-- Go map write `m[k] = v`. -/
def setKey (k : String) (v : Val) : Meta → Meta
  | [] => [(k, v)]
  | (k', v') :: rest => if k' = k then (k, v) :: rest else (k', v') :: setKey k v rest

/-- `fmt.Sprintf("%v", x)` on a JSON-decoded value (only the `str` case is
reached by the claims; the other cases follow Go's default formatting). -/
def sprintfv : Val → String
  | .str s => s
  | .num n => toString n
  | .bool b => if b then "true" else "false"
  | .obj _ => "map[...]"
  | .arr _ => "[...]"
  | .nul => "<nil>"

/-- `fmt.Sprintf("%T", x)`: the Go dynamic type name of a JSON-decoded
`interface\x7b\x7d` value. -/
def goTypeName : Val → String
  | .str _ => "string"
  | .num _ => "float64"
  | .bool _ => "bool"
  | .obj _ => "map[string]interface \x7b\x7d"
  | .arr _ => "[]interface \x7b\x7d"
  | .nul => "<nil>"

/-! Status constants from `pkg/types/types.go`. -/

def statusStarting : String := "starting"
def statusProcessing : String := "processing"
def statusSucceeded : String := "succeeded"
def statusFailed : String := "failed"
def statusCanceled : String := "canceled"

/-- `types.ReplicatePredictionResponse`, restricted to the fields the
lifecycle logic reads. -/
structure Prediction where
  id : String
  status : String
  output : Val
  error : Val

/-- `extractFailMsg` embeds the failure-message extraction inside
`WaitForCompletion`'s `StatusFailed` case (`pkg/client`, responses.go
block, lines 262-273): default "prediction failed"; a bare string payload
is taken verbatim; a `map[string]interface \x7b\x7d` payload contributes
`fmt.Sprintf("%v", m["message"])` when the key is present. -/
def extractFailMsg (e : Val) : String :=
  match e with
  | .nul => "prediction failed"
  | .str s => s
  | .obj fs =>
    match lookupKey "message" fs with
    | some v => sprintfv v
    | none => "prediction failed"
  | _ => "prediction failed"

/-- One step of `WaitForCompletion`'s polling loop.  `remote k` is the
prediction returned by the `k`-th `GetPrediction` call (the remote service
is modelled as reachable; transport failures are outside these claims).
`remaining` counts the 2-second ticks left before the deadline check
`time.Now().After(deadline)` fires; when it reaches zero the code performs
one final `GetPrediction` (discarding its error) and returns it together
with the timeout error.  The third component is the number of
`GetPrediction` network calls performed. -/
def waitFrom (remote : Nat → Prediction) (tmsg : String) :
    Nat → Nat → Prediction × Option String × Nat
  | 0, tick => (remote tick, some tmsg, tick)
  | r + 1, tick =>
    let p := remote tick
    if p.status = statusSucceeded then (p, none, tick)
    else if p.status = statusFailed then (p, some (extractFailMsg p.error), tick)
    else if p.status = statusCanceled then (p, some "prediction was canceled", tick)
    else waitFrom remote tmsg r (tick + 1)

/-- `client.WaitForCompletion(ctx, id, timeout)` with `timeout = secs`
seconds.  The ticker fires every 2 seconds, so polls happen at ticks
`1, ..., secs / 2` and the deadline check trips on tick `secs / 2 + 1`;
`timeout = 0` falls back to the 10-minute default (300 ticks).  The
timeout error is `fmt.Errorf("operation timed out after %v", timeout)`. -/
def waitForCompletion (remote : Nat → Prediction) (secs : Nat) :
    Prediction × Option String × Nat :=
  waitFrom remote ("operation timed out after " ++ toString secs ++ "s")
    (if secs = 0 then 300 else secs / 2) 1

/-- Contents of one `<storageID>/metadata.yaml` file: either a YAML
mapping (the only thing this code base ever writes) or an unparseable
file, which makes `LoadMetadata` return its unmarshal error. -/
inductive FileContent where
  | yamlMap (m : Meta)
  | invalid (raw : String)

/-- The per-job directories under the videos root folder, keyed by
storage ID (`os.ReadDir` presents them in sorted order; the scan facts
proved below do not depend on the order). -/
abbrev RecordStore := List (String × FileContent)

def lookupRecord (sid : String) : RecordStore → Option FileContent
  | [] => none
  | (sid', c) :: rest => if sid' = sid then some c else lookupRecord sid rest

def setRecord (sid : String) (c : FileContent) : RecordStore → RecordStore
  | [] => [(sid, c)]
  | (sid', c') :: rest =>
    if sid' = sid then (sid, c) :: rest else (sid', c') :: setRecord sid c rest

/-- Observable effects of one run: the metadata records on disk, and
counters for artifact downloads (`SaveVideoFromURL` HTTP GETs), status
polls (`GetPrediction` calls) and submissions (`CreatePrediction`
calls). -/
structure World where
  records : RecordStore
  downloads : Nat
  polls : Nat
  creates : Nat

/-- `storage.GenerateStorageID`: a fresh UUID with its dashes removed
(`strings.ReplaceAll(u, "-", "")`), truncated to its first 8 characters
(UUIDs are ASCII, so Go's byte slicing is character slicing). The UUID
drawn by `uuid.New()` is passed in as `u`. -/
def genStorageID (u : String) : String :=
  String.mk ((u.data.filter (fun c => c != '-')).take 8)

/-- Substring test `strings.Contains`. -/
def hasPrefixL : List Char → List Char → Bool
  | [], _ => true
  | _ :: _, [] => false
  | c :: cs, d :: ds => c = d && hasPrefixL cs ds

def containsL (pat : List Char) : List Char → Bool
  | [] => hasPrefixL pat []
  | c :: rest => hasPrefixL pat (c :: rest) || containsL pat rest

def goContains (s pat : String) : Bool := containsL pat.data s.data

/-- Extension selection at the top of `storage.SaveVideoFromURL`. -/
def extFor (url : String) : String :=
  if goContains url ".webm" then ".webm"
  else if goContains url ".gif" then ".gif"
  else ".mp4"

/-- `storage.SaveVideoFromURL(url, storageID, filename)`: picks the file
name, performs one HTTP download (assumed to answer 200; `sizeOf url` is
the byte count copied) and returns the artifact path and size.
`filepath.Join` is modelled as `/`-concatenation. -/
def saveVideoFromURL (root : String) (sizeOf : String → Int)
    (url sid filename : String) (w : World) : (String × Int) × World :=
  let ext := extFor url
  let fname := if filename = "" then "video" else filename
  let fname := if goContains fname "." then fname else fname ++ ext
  let path := root ++ "/" ++ sid ++ "/" ++ fname
  ((path, sizeOf url), { w with downloads := w.downloads + 1 })

/-- `storage.SaveMetadata(storageID, metadata)`: stamps `generated_at`
into the map, marshals it and `os.WriteFile`s `metadata.yaml` — the file
is replaced wholesale with exactly the entries of `m`. -/
def saveMetadata (sid : String) (m : Meta) (now : String) (w : World) : World :=
  { w with records := setRecord sid (.yamlMap (setKey "generated_at" (.str now) m)) w.records }

/-- `storage.LoadMetadata(storageID)`: a missing `metadata.yaml` is not an
error (empty map, nil error); an unparseable one returns the unmarshal
error. -/
def loadMetadata (fs : RecordStore) (sid : String) : Meta × Option String :=
  match lookupRecord sid fs with
  | none => ([], none)
  | some (.yamlMap m) => (m, none)
  | some (.invalid _) => ([], some "failed to unmarshal metadata")

/-- `generation.VideoResult`, restricted to the fields written by the
submit and continue paths (unset Go fields are zero values). -/
structure VideoResultM where
  id : String
  filePath : String
  model : String
  modelName : String
  predictionID : String
  status : String
  fileSize : Int

/-- `generation.ContinueGeneration(ctx, predictionID, storageID, waitTime)`
with `waitTime = secs` seconds.  Returns the Go pair
`(*VideoResult, error)` (the result is `none` exactly when the Go pointer
is nil) together with the updated world.  Note that the function never
reads the persisted record: it always starts with a `WaitForCompletion`
poll against the remote service. -/
def continueGeneration (root : String) (remote : Nat → Prediction)
    (sizeOf : String → Int) (now : String) (predictionID sid : String)
    (secs : Nat) (w : World) : (Option VideoResultM × Option String) × World :=
  let out := waitForCompletion remote secs
  let pred := out.1
  let w := { w with polls := w.polls + out.2.2 }
  match out.2.1 with
  | some e =>
    -- WaitForCompletion only errors with a non-nil prediction here
    -- (GetPrediction is modelled as reachable), so the "at least got a
    -- prediction back" branch builds a partial result carrying the status.
    ((some ⟨sid, "", "", "", predictionID, pred.status, 0⟩, some e), w)
  | none =>
    if pred.status ≠ statusSucceeded then
      ((some ⟨sid, "", "", "", predictionID, pred.status, 0⟩,
        some ("generation failed with status: " ++ pred.status)), w)
    else
      match pred.output with
      | .str url =>
        let dl := saveVideoFromURL root sizeOf url sid "" w
        let path := dl.1.1
        let size := dl.1.2
        let w := dl.2
        let meta : Meta :=
          [("prediction_id", .str predictionID), ("status", .str "completed"),
           ("output_url", .str url), ("output_path", .str path),
           ("file_size", .num size), ("completed_at", .str now)]
        let w := saveMetadata sid meta now w
        ((some ⟨sid, path, "", "", predictionID, "completed", size⟩, none), w)
      | other =>
        ((none, some ("unexpected output format: " ++ goTypeName other)), w)

/-! Model configuration tables from the `generation` package. -/

structure ModelConfig where
  id : String
  name : String
  mtype : String
  defaultRes : String
  maxDuration : Int
  features : List String

def getModelConfig (nm : String) : Option ModelConfig :=
  if nm = "wan-t2v-fast" then
    some ⟨"wan-video/wan-2.2-t2v-fast", "Wan 2.2 Fast Text-to-Video", "t2v", "480p", 0,
      ["fast", "affordable", "go_fast"]⟩
  else if nm = "wan-i2v-fast" then
    some ⟨"wan-video/wan-2.2-i2v-fast", "Wan 2.2 Fast Image-to-Video", "i2v", "480p", 0,
      ["fast", "affordable", "go_fast"]⟩
  else if nm = "veo3" then
    some ⟨"google/veo-3", "Google Veo 3", "both", "720p", 0,
      ["premium", "audio", "style_preservation", "negative_prompt"]⟩
  else if nm = "kling-master" then
    some ⟨"kwaivgi/kling-v2.1-master", "Kling 2.1 Master", "both", "1080p", 10,
      ["high_quality", "duration_control", "negative_prompt"]⟩
  else none

def isTextToVideoModel (nm : String) : Bool :=
  match getModelConfig nm with
  | some c => c.mtype = "t2v" || c.mtype = "both"
  | none => false

/-- `generation.VideoParams`, restricted to the text-to-video fields. -/
structure VideoParamsM where
  prompt : String
  model : String
  resolution : String
  aspectRatio : String
  negativePrompt : String
  duration : Int

/-- `generation.buildTextToVideoInput`. -/
def buildTextToVideoInput (params : VideoParamsM) (config : ModelConfig) : Meta :=
  let input : Meta := setKey "prompt" (.str params.prompt) []
  let input :=
    if params.resolution ≠ "" then setKey "resolution" (.str params.resolution) input
    else setKey "resolution" (.str config.defaultRes) input
  let input :=
    if params.aspectRatio ≠ "" then setKey "aspect_ratio" (.str params.aspectRatio) input
    else input
  if params.model = "wan-t2v-fast" then
    setKey "optimize_prompt" (.bool false)
      (setKey "sample_shift" (.num 12)
        (setKey "frames_per_second" (.num 16)
          (setKey "num_frames" (.num 81)
            (setKey "go_fast" (.bool true) input))))
  else if params.model = "veo3" then
    if params.negativePrompt ≠ "" then
      setKey "negative_prompt" (.str params.negativePrompt) input
    else input
  else if params.model = "kling-master" then
    let input :=
      if params.duration > 0 then setKey "duration" (.num params.duration) input
      else setKey "duration" (.num 5) input
    if params.negativePrompt ≠ "" then
      setKey "negative_prompt" (.str params.negativePrompt) input
    else input
  else input

/-- `generation.GenerateTextToVideo(ctx, params)`.  `create modelID input`
is the prediction returned by the single `client.CreatePrediction` call
(its success path; a submission error would return before any further
effect), and `uuid` is the value drawn by `uuid.New()` inside
`GenerateStorageID`.  The function performs exactly one `CreatePrediction`
round trip and never invokes `WaitForCompletion`. -/
def generateTextToVideo (create : String → Meta → Prediction) (uuid now : String)
    (params : VideoParamsM) (w : World) : Except String VideoResultM × World :=
  match getModelConfig params.model with
  | none => (.error ("unknown model: " ++ params.model), w)
  | some config =>
    if !isTextToVideoModel params.model then
      (.error ("model " ++ params.model ++ " does not support text-to-video"), w)
    else
      let input := buildTextToVideoInput params config
      let storageID := genStorageID uuid
      let pred := create config.id input
      let w := { w with creates := w.creates + 1 }
      let meta : Meta :=
        [("operation", .str "text_to_video"), ("model", .str params.model),
         ("model_id", .str config.id), ("prompt", .str params.prompt),
         ("parameters", .obj input), ("prediction_id", .str pred.id),
         ("status", .str pred.status)]
      let w := saveMetadata storageID meta now w
      (.ok ⟨storageID, "", params.model, config.name, pred.id, pred.status, 0⟩, w)

/-- The Go dynamic type of every error built below: `fmt.Errorf` without a
`%w` verb returns the result of `errors.New`, a `*errors.errorString`. -/
def goErrorStringType : String := "*errors.errorString"

/-- A Go error value as the caller can observe it: its dynamic type name
and its `Error()` message. -/
structure GoErrorVal where
  typeName : String
  message : String

/-- The error classification of `client.CreatePrediction` (replicate.go):
`rawBody` is the response body text and `parsed` the result of
`json.Unmarshal(respBody, &errorResp)` into a `map[string]interface \x7b\x7d`
(`none` when the body is not a JSON object).  Returns `none` on the 200/201
success path. -/
def createPredictionError (statusCode : Nat) (rawBody : String)
    (parsed : Option Meta) : Option GoErrorVal :=
  if statusCode = 402 then
    some (match parsed with
      | some m =>
        match lookupKey "detail" m with
        | some (.str d) => ⟨goErrorStringType, "billing issue: " ++ d⟩
        | _ => ⟨goErrorStringType, "billing issue (status 402): " ++ rawBody⟩
      | none => ⟨goErrorStringType, "billing issue (status 402): " ++ rawBody⟩)
  else if statusCode = 201 ∨ statusCode = 200 then none
  else some ⟨goErrorStringType,
    "API error (status " ++ toString statusCode ++ "): " ++ rawBody⟩

/-! Handler-level operations (`handleContinueOperation` and its helpers,
src/unnamed/part_002). -/

/-- The wait-time clamp at the top of `handleContinueOperation`: a missing
or non-`float64` `wait_time` argument defaults to 30 seconds, numeric
values are clamped into `[5, 60]`.  JSON numbers arrive as `float64`;
the integral values occurring here are modelled by `Val.num`. -/
def resolveWaitTime (arg : Option Val) : Int :=
  match arg with
  | some (.num wt) =>
    let w := wt
    let w := if w < 5 then 5 else w
    if w > 60 then 60 else w
  | _ => 30

/-- Predicate of `findStorageIDForPrediction`'s scan: the directory's
metadata loads without error and its `prediction_id` field is a string
equal to the prediction ID being sought (a `LoadMetadata` error makes the
loop `continue`, and a missing file loads as the empty map, which has no
`prediction_id` field). -/
def entryMatches (pid : String) (e : String × FileContent) : Bool :=
  match e.2 with
  | .invalid _ => false
  | .yamlMap m =>
    match lookupKey "prediction_id" m with
    | some (.str s) => decide (s = pid)
    | _ => false

/-- `handler.findStorageIDForPrediction`: linear scan over the storage
directories, returning the first whose metadata records the prediction
ID; `none` models the "storage ID not found" error. -/
def findStorageIDForPrediction (fs : RecordStore) (pid : String) : Option String :=
  match fs with
  | [] => none
  | e :: rest =>
    if entryMatches pid e then some e.1 else findStorageIDForPrediction rest pid

/-- The storage-ID resolution step of `handleContinueOperation`
(part_002 lines 222-227): prefer the scanned storage ID; on scan error or
empty result, fall back to a freshly generated ID (`uuid` is the UUID
drawn in that case). -/
def resolveStorageID (fs : RecordStore) (pid uuid : String) : String :=
  match findStorageIDForPrediction fs pid with
  | some sid => if sid = "" then genStorageID uuid else sid
  | none => genStorageID uuid

/-! Helper lemmas about the polling loop. -/

lemma waitFrom_first_succeeded (remote : Nat → Prediction) (tmsg : String)
    (r tick : Nat) (h : (remote tick).status = statusSucceeded) :
    waitFrom remote tmsg (r + 1) tick = (remote tick, none, tick) := by
  simp [waitFrom, h]

lemma waitFrom_first_failed (remote : Nat → Prediction) (tmsg : String)
    (r tick : Nat) (h : (remote tick).status = statusFailed) :
    waitFrom remote tmsg (r + 1) tick =
      (remote tick, some (extractFailMsg (remote tick).error), tick) := by
  simp [waitFrom, h, statusFailed, statusSucceeded]

lemma waitFrom_processing (remote : Nat → Prediction) (tmsg : String) :
    ∀ (remaining tick : Nat),
      (∀ k, tick ≤ k → k ≤ tick + remaining → (remote k).status = statusProcessing) →
      waitFrom remote tmsg remaining tick =
        (remote (tick + remaining), some tmsg, tick + remaining)
  | 0, tick, _ => by simp [waitFrom]
  | r + 1, tick, h => by
    have htick : (remote tick).status = statusProcessing :=
      h tick (Nat.le_refl _) (by omega)
    have ih := waitFrom_processing remote tmsg r (tick + 1)
      (fun k h1 h2 => h k (by omega) (by omega))
    have harith : tick + 1 + r = tick + (r + 1) := by omega
    rw [harith] at ih
    simp [waitFrom, htick, statusProcessing, statusSucceeded, statusFailed,
      statusCanceled, ih]

lemma waitForCompletion_succeeded (remote : Nat → Prediction) (secs : Nat)
    (hsecs : 2 ≤ secs) (h : (remote 1).status = statusSucceeded) :
    waitForCompletion remote secs = (remote 1, none, 1) := by
  obtain ⟨r, hr⟩ : ∃ r, secs / 2 = r + 1 := ⟨secs / 2 - 1, by omega⟩
  unfold waitForCompletion
  rw [if_neg (by omega), hr, waitFrom_first_succeeded remote _ r 1 h]

lemma waitForCompletion_failed (remote : Nat → Prediction) (secs : Nat)
    (hsecs : 2 ≤ secs) (h : (remote 1).status = statusFailed) :
    waitForCompletion remote secs =
      (remote 1, some (extractFailMsg (remote 1).error), 1) := by
  obtain ⟨r, hr⟩ : ∃ r, secs / 2 = r + 1 := ⟨secs / 2 - 1, by omega⟩
  unfold waitForCompletion
  rw [if_neg (by omega), hr, waitFrom_first_failed remote _ r 1 h]

lemma waitForCompletion_timeout (remote : Nat → Prediction) (secs : Nat)
    (hsecs : 2 ≤ secs)
    (h : ∀ k, k ≤ secs / 2 + 1 → (remote k).status = statusProcessing) :
    waitForCompletion remote secs =
      (remote (secs / 2 + 1), some ("operation timed out after " ++ toString secs ++ "s"),
        secs / 2 + 1) := by
  unfold waitForCompletion
  rw [if_neg (by omega)]
  have heq := waitFrom_processing remote
    ("operation timed out after " ++ toString secs ++ "s") (secs / 2) 1
    (fun k h1 h2 => h k (by omega))
  have hc : 1 + secs / 2 = secs / 2 + 1 := Nat.add_comm 1 _
  rw [hc] at heq
  exact heq

/-- The completion metadata written by `ContinueGeneration` (including the
`generated_at` stamp added by `SaveMetadata`). -/
def completionRecord (pid url path : String) (size : Int) (now : String) : Meta :=
  setKey "generated_at" (.str now)
    [("prediction_id", .str pid), ("status", .str "completed"),
     ("output_url", .str url), ("output_path", .str path),
     ("file_size", .num size), ("completed_at", .str now)]

lemma continueGeneration_succeeded (root : String) (remote : Nat → Prediction)
    (sizeOf : String → Int) (now pid sid pid' url : String) (e : Val)
    (secs : Nat) (w : World) (hsecs : 2 ≤ secs)
    (h1 : remote 1 = ⟨pid', statusSucceeded, .str url, e⟩) :
    continueGeneration root remote sizeOf now pid sid secs w =
      ((some ⟨sid, root ++ "/" ++ sid ++ "/" ++ ("video" ++ extFor url), "", "",
          pid, "completed", sizeOf url⟩, none),
       { w with
           records := setRecord sid
             (.yamlMap (completionRecord pid url
               (root ++ "/" ++ sid ++ "/" ++ ("video" ++ extFor url)) (sizeOf url) now))
             w.records,
           downloads := w.downloads + 1,
           polls := w.polls + 1 }) := by
  unfold continueGeneration
  rw [waitForCompletion_succeeded remote secs hsecs (by rw [h1])]
  rw [h1]
  simp [saveVideoFromURL, saveMetadata, statusSucceeded, completionRecord,
    goContains, containsL, hasPrefixL]

lemma continueGeneration_timeout (root : String) (remote : Nat → Prediction)
    (sizeOf : String → Int) (now pid sid : String) (secs : Nat) (w : World)
    (hsecs : 2 ≤ secs)
    (h : ∀ k, k ≤ secs / 2 + 1 → (remote k).status = statusProcessing) :
    continueGeneration root remote sizeOf now pid sid secs w =
      ((some ⟨sid, "", "", "", pid, statusProcessing, 0⟩,
        some ("operation timed out after " ++ toString secs ++ "s")),
       { w with polls := w.polls + (secs / 2 + 1) }) := by
  unfold continueGeneration
  rw [waitForCompletion_timeout remote secs hsecs h]
  simp [h (secs / 2 + 1) (Nat.le_refl _)]

/-- C5 (confirmed): for a provider poll reporting status `failed`, the
failure message extracted by `WaitForCompletion` is the same whether the
error payload is the bare string `"text"` or the structured object
`\x7b"message": "text"\x7d`: both yield `text` as the returned error. -/
theorem C5_error_payload_shapes (s pid : String) :
    (waitForCompletion (fun _ => ⟨pid, statusFailed, .nul, .str s⟩) 30).2.1 = some s ∧
    (waitForCompletion (fun _ => ⟨pid, statusFailed, .nul,
        .obj [("message", .str s)]⟩) 30).2.1 = some s ∧
    extractFailMsg (.str s) = extractFailMsg (.obj [("message", .str s)]) := by
  refine ⟨?_, ?_, ?_⟩
  · rw [waitForCompletion_failed _ 30 (by omega) rfl]
    simp [extractFailMsg]
  · rw [waitForCompletion_failed _ 30 (by omega) rfl]
    simp [extractFailMsg, lookupKey, sprintfv]
  · simp [extractFailMsg, lookupKey, sprintfv]

/-- C7 (confirmed): `LoadMetadata` on a storage ID whose record file does
not exist returns the empty record with a nil error: a missing record is
not an error condition. -/
theorem C7_missing_record (fs : RecordStore) (sid : String)
    (h : lookupRecord sid fs = none) :
    loadMetadata fs sid = ([], none) := by
  unfold loadMetadata
  rw [h]

/-- Witness for C7 at a store that holds one unrelated record. -/
theorem C7_witness :
    loadMetadata [("abc12345", FileContent.yamlMap [("prompt", Val.str "a cat")])]
      "zzzzzzzz" = ([], none) :=
  C7_missing_record _ "zzzzzzzz" rfl

/-- C10 (confirmed): `handleContinueOperation` silently clamps the
caller-supplied `wait_time` into `[5, 60]` seconds; an absent or
non-numeric argument defaults to 30.  In particular a requested wait of
1 second actually waits 5. -/
theorem C10_wait_clamp (wt : Int) :
    resolveWaitTime none = 30 ∧
    (∀ s, resolveWaitTime (some (.str s)) = 30) ∧
    resolveWaitTime (some .nul) = 30 ∧
    (wt < 5 → resolveWaitTime (some (.num wt)) = 5) ∧
    (60 < wt → resolveWaitTime (some (.num wt)) = 60) ∧
    (5 ≤ wt → wt ≤ 60 → resolveWaitTime (some (.num wt)) = wt) ∧
    5 ≤ resolveWaitTime (some (.num wt)) := by
  unfold resolveWaitTime
  refine ⟨rfl, fun s => rfl, rfl, ?_, ?_, ?_, ?_⟩ <;>
    · intros
      dsimp only
      split_ifs <;> omega

/-- Witness for C10: a requested 1-second wait is raised to 5 seconds. -/
theorem C10_witness : resolveWaitTime (some (.num 1)) = 5 :=
  (C10_wait_clamp 1).2.2.2.1 (by omega)

lemma find_eq_of_filter_singleton (pid sid0 : String) (m0 : Meta) :
    ∀ fs : RecordStore, fs.filter (entryMatches pid) = [(sid0, .yamlMap m0)] →
      findStorageIDForPrediction fs pid = some sid0
  | [], h => by simp at h
  | e :: rest, h => by
    unfold findStorageIDForPrediction
    rw [List.filter_cons] at h
    by_cases he : entryMatches pid e = true
    · rw [if_pos he] at h
      injection h with h1 h2
      rw [if_pos he, h1]
    · rw [if_neg he] at h
      rw [if_neg he]
      exact find_eq_of_filter_singleton pid sid0 m0 rest h

lemma find_eq_none_of_no_match (pid : String) :
    ∀ fs : RecordStore, (∀ e ∈ fs, entryMatches pid e = false) →
      findStorageIDForPrediction fs pid = none
  | [], _ => rfl
  | e :: rest, h => by
    unfold findStorageIDForPrediction
    rw [if_neg (by simp [h e (List.mem_cons_self _ _)])]
    exact find_eq_none_of_no_match pid rest (fun e' he' => h e' (List.mem_cons_of_mem _ he'))

/-- C9 (confirmed): `handleContinueOperation` resolves the storage ID for
a prediction by scanning the persisted records (`findStorageIDForPrediction`)
and uses the matching record's storage ID when one exists; only when no
record matches does it fall back to allocating a fresh storage ID.  So a
job submitted earlier is continued under its original local id. -/
theorem C9_continue_resolution (fs : RecordStore) (pid uuid sid0 : String) (m0 : Meta) :
    (fs.filter (entryMatches pid) = [(sid0, .yamlMap m0)] → sid0 ≠ "" →
      resolveStorageID fs pid uuid = sid0) ∧
    ((∀ e ∈ fs, entryMatches pid e = false) →
      resolveStorageID fs pid uuid = genStorageID uuid) := by
  constructor
  · intro h hne
    unfold resolveStorageID
    rw [find_eq_of_filter_singleton pid sid0 m0 fs h]
    simp [hne]
  · intro h
    unfold resolveStorageID
    rw [find_eq_none_of_no_match pid fs h]

/-- Witness for C9: the matching record's ID is reused; with no matching
record a fresh 8-character ID is generated from the drawn UUID. -/
theorem C9_witness :
    resolveStorageID
      [("aaaa1111", .yamlMap [("prediction_id", Val.str "predX")]),
       ("bbbb2222", .yamlMap [("prediction_id", Val.str "predY")])]
      "predY" "0f47ae12-9c3b-4e21-8a77-3d5f0c9b1a22" = "bbbb2222" ∧
    resolveStorageID
      [("aaaa1111", .yamlMap [("prediction_id", Val.str "predX")])]
      "predZ" "0f47ae12-9c3b-4e21-8a77-3d5f0c9b1a22" =
      genStorageID "0f47ae12-9c3b-4e21-8a77-3d5f0c9b1a22" := by
  constructor
  · exact (C9_continue_resolution _ "predY" _ "bbbb2222"
      [("prediction_id", Val.str "predY")]).1 rfl (by decide)
  · exact (C9_continue_resolution _ "predZ" _ "x" []).2 (by decide)

/-- C8 (confirmed): when the remote job reports success but the result
payload is not a single URL string, `ContinueGeneration` fails with the
"unexpected output format" error — a nil result, no artifact download and
no record update — whereas a remote job failure returns a non-nil result
carrying status `failed` with the provider's message, so the two outcomes
are distinct. -/
theorem C8_malformed_result (root : String) (sizeOf : String → Int)
    (now pid sid pid' m : String) (output : Val) (secs : Nat) (w : World)
    (hsecs : 2 ≤ secs) (hout : ∀ s, output ≠ Val.str s) :
    (continueGeneration root (fun _ => ⟨pid', statusSucceeded, output, .nul⟩)
        sizeOf now pid sid secs w =
      ((none, some ("unexpected output format: " ++ goTypeName output)),
       { w with polls := w.polls + 1 })) ∧
    (continueGeneration root (fun _ => ⟨pid', statusFailed, .nul, .str m⟩)
        sizeOf now pid sid secs w =
      ((some ⟨sid, "", "", "", pid, statusFailed, 0⟩, some m),
       { w with polls := w.polls + 1 })) := by
  constructor
  · unfold continueGeneration
    rw [waitForCompletion_succeeded _ secs hsecs rfl]
    cases output
    case str s => exact absurd rfl (hout s)
    all_goals simp [statusSucceeded, goTypeName]
  · unfold continueGeneration
    rw [waitForCompletion_failed _ secs hsecs rfl]
    simp [extractFailMsg, statusFailed, statusSucceeded]

/-- Witness for C8: a list-shaped success payload (two URLs) is rejected
with the malformed-output error and neither downloads nor record writes
happen; a failed job at the same inputs yields the distinct failure
outcome. -/
theorem C8_witness :
    (continueGeneration "/videos"
        (fun _ => ⟨"pred-1", statusSucceeded,
          Val.arr [Val.str "https://cdn/a.mp4", Val.str "https://cdn/b.mp4"], Val.nul⟩)
        (fun _ => 9) "t1" "pred-1" "abc12345" 30 ⟨[], 0, 0, 0⟩ =
      ((none, some "unexpected output format: []interface \x7b\x7d"),
       ⟨[], 0, 1, 0⟩)) ∧
    (continueGeneration "/videos"
        (fun _ => ⟨"pred-1", statusFailed, Val.nul, Val.str "NSFW content detected"⟩)
        (fun _ => 9) "t1" "pred-1" "abc12345" 30 ⟨[], 0, 0, 0⟩ =
      ((some ⟨"abc12345", "", "", "", "pred-1", statusFailed, 0⟩,
        some "NSFW content detected"),
       ⟨[], 0, 1, 0⟩)) :=
  C8_malformed_result "/videos" (fun _ => 9) "t1" "pred-1" "abc12345" "pred-1"
    "NSFW content detected"
    (Val.arr [Val.str "https://cdn/a.mp4", Val.str "https://cdn/b.mp4"]) 30
    ⟨[], 0, 0, 0⟩ (by omega) (fun s h => Val.noConfusion h)

/-- C3 (confirmed): when the wait budget elapses while the remote job is
still `processing`, `ContinueGeneration` returns a result carrying the
still-running status `processing` (not `failed`) together with the
timeout error message, and leaves the record store and download counter
untouched; a later Continue against a now-succeeded remote still observes
completion. -/
theorem C3_timeout_behavior (root : String) (remote remote2 : Nat → Prediction)
    (sizeOf : String → Int) (now pid sid pid' url : String) (e : Val)
    (secs : Nat) (w : World) (hsecs : 2 ≤ secs)
    (hproc : ∀ k, k ≤ secs / 2 + 1 → (remote k).status = statusProcessing)
    (hsucc : remote2 1 = ⟨pid', statusSucceeded, .str url, e⟩) :
    (continueGeneration root remote sizeOf now pid sid secs w =
      ((some ⟨sid, "", "", "", pid, statusProcessing, 0⟩,
        some ("operation timed out after " ++ toString secs ++ "s")),
       { w with polls := w.polls + (secs / 2 + 1) })) ∧
    ({ w with polls := w.polls + (secs / 2 + 1) } : World).records = w.records ∧
    ({ w with polls := w.polls + (secs / 2 + 1) } : World).downloads = w.downloads ∧
    statusProcessing ≠ statusFailed ∧
    ((continueGeneration root remote2 sizeOf now pid sid secs
        { w with polls := w.polls + (secs / 2 + 1) }).1.1.map VideoResultM.status =
      some "completed") := by
  refine ⟨continueGeneration_timeout root remote sizeOf now pid sid secs w hsecs hproc,
    rfl, rfl, by decide, ?_⟩
  rw [continueGeneration_succeeded root remote2 sizeOf now pid sid pid' url e secs _
    hsecs hsucc]
  rfl

/-- Witness for C3: a 6-second budget against a stuck-processing remote
returns status `processing` plus the timeout error and writes nothing;
retrying once the remote has succeeded completes. -/
theorem C3_witness :
    (continueGeneration "/videos" (fun _ => ⟨"p1", "processing", Val.nul, Val.nul⟩)
        (fun _ => 9) "t1" "p1" "abc12345" 6 ⟨[], 0, 0, 0⟩ =
      ((some ⟨"abc12345", "", "", "", "p1", "processing", 0⟩,
        some "operation timed out after 6s"), ⟨[], 0, 4, 0⟩)) ∧
    ((continueGeneration "/videos"
        (fun _ => ⟨"p1", "succeeded", Val.str "https://cdn/v.mp4", Val.nul⟩)
        (fun _ => 9) "t1" "p1" "abc12345" 6 ⟨[], 0, 4, 0⟩).1.1.map
        VideoResultM.status = some "completed") := by
  have h := C3_timeout_behavior "/videos"
    (fun _ => ⟨"p1", "processing", Val.nul, Val.nul⟩)
    (fun _ => ⟨"p1", "succeeded", Val.str "https://cdn/v.mp4", Val.nul⟩)
    (fun _ => 9) "t1" "p1" "abc12345" "p1" "https://cdn/v.mp4" Val.nul 6
    ⟨[], 0, 0, 0⟩ (by omega) (fun k _ => rfl) rfl
  exact ⟨h.1, h.2.2.2.2⟩

/-- C1 counterexample: a job whose record already holds the terminal
`completed` snapshot (and whose artifact was downloaded once).  A further
`ContinueGeneration` call still polls the remote client and re-downloads,
and a second call downloads again: after two calls the download counter
is 3, refuting "at most one download per job", and the poll counter is 2,
refuting "does not contact the Remote Job Client". -/
theorem C1_counterexample :
    let remote : Nat → Prediction :=
      fun _ => ⟨"pred-1", "succeeded", Val.str "https://cdn/video.mp4", Val.nul⟩
    let w0 : World :=
      ⟨[("abc12345", .yamlMap (completionRecord "pred-1" "https://cdn/video.mp4"
          "/videos/abc12345/video.mp4" 9 "t0"))], 1, 0, 0⟩
    let r1 := continueGeneration "/videos" remote (fun _ => 9) "t1" "pred-1" "abc12345" 30 w0
    let r2 := continueGeneration "/videos" remote (fun _ => 9) "t2" "pred-1" "abc12345" 30 r1.2
    r2.2.downloads = 3 ∧ ¬ r2.2.downloads ≤ 1 ∧ r2.2.polls = 2 ∧ ¬ r2.2.polls = 0 := by
  exact ⟨rfl, by decide, rfl, by decide⟩

/-- C1 (corrected): `ContinueGeneration` never consults the persisted
record's status, so every Continue call after success re-contacts the
remote client and re-downloads the artifact — one download per call, not
at most one per job.  What survives of the claim: the artifact path is a
deterministic function of the URL and storage ID, so two sequential calls
do return identical `result_path`. -/
theorem C1_continue_not_idempotent (root : String) (remote : Nat → Prediction)
    (sizeOf : String → Int) (now1 now2 pid sid pid' url : String) (e : Val)
    (secs : Nat) (w : World) (hsecs : 2 ≤ secs)
    (h1 : remote 1 = ⟨pid', statusSucceeded, .str url, e⟩) :
    ∃ v1 v2,
      (continueGeneration root remote sizeOf now1 pid sid secs w).1.1 = some v1 ∧
      (continueGeneration root remote sizeOf now2 pid sid secs
        (continueGeneration root remote sizeOf now1 pid sid secs w).2).1.1 = some v2 ∧
      v1.filePath = v2.filePath ∧
      v1.filePath = root ++ "/" ++ sid ++ "/" ++ ("video" ++ extFor url) ∧
      (continueGeneration root remote sizeOf now2 pid sid secs
        (continueGeneration root remote sizeOf now1 pid sid secs w).2).2.downloads =
        w.downloads + 2 ∧
      (continueGeneration root remote sizeOf now2 pid sid secs
        (continueGeneration root remote sizeOf now1 pid sid secs w).2).2.polls =
        w.polls + 2 := by
  rw [continueGeneration_succeeded root remote sizeOf now1 pid sid pid' url e secs w hsecs h1]
  dsimp only
  rw [continueGeneration_succeeded root remote sizeOf now2 pid sid pid' url e secs _ hsecs h1]
  exact ⟨_, _, rfl, rfl, rfl, rfl, rfl, rfl⟩

/-- Witness for C1's amended statement at concrete inputs. -/
theorem C1_witness :
    ∃ v1 v2,
      (continueGeneration "/videos"
        (fun _ => ⟨"pred-1", "succeeded", Val.str "https://cdn/video.mp4", Val.nul⟩)
        (fun _ => 9) "t1" "pred-1" "abc12345" 30 ⟨[], 1, 0, 0⟩).1.1 = some v1 ∧
      (continueGeneration "/videos"
        (fun _ => ⟨"pred-1", "succeeded", Val.str "https://cdn/video.mp4", Val.nul⟩)
        (fun _ => 9) "t2" "pred-1" "abc12345" 30
        (continueGeneration "/videos"
          (fun _ => ⟨"pred-1", "succeeded", Val.str "https://cdn/video.mp4", Val.nul⟩)
          (fun _ => 9) "t1" "pred-1" "abc12345" 30 ⟨[], 1, 0, 0⟩).2).1.1 = some v2 ∧
      v1.filePath = v2.filePath ∧
      v1.filePath = "/videos" ++ "/" ++ "abc12345" ++ "/" ++
        ("video" ++ extFor "https://cdn/video.mp4") ∧
      (continueGeneration "/videos"
        (fun _ => ⟨"pred-1", "succeeded", Val.str "https://cdn/video.mp4", Val.nul⟩)
        (fun _ => 9) "t2" "pred-1" "abc12345" 30
        (continueGeneration "/videos"
          (fun _ => ⟨"pred-1", "succeeded", Val.str "https://cdn/video.mp4", Val.nul⟩)
          (fun _ => 9) "t1" "pred-1" "abc12345" 30 ⟨[], 1, 0, 0⟩).2).2.downloads =
        (⟨[], 1, 0, 0⟩ : World).downloads + 2 ∧
      (continueGeneration "/videos"
        (fun _ => ⟨"pred-1", "succeeded", Val.str "https://cdn/video.mp4", Val.nul⟩)
        (fun _ => 9) "t2" "pred-1" "abc12345" 30
        (continueGeneration "/videos"
          (fun _ => ⟨"pred-1", "succeeded", Val.str "https://cdn/video.mp4", Val.nul⟩)
          (fun _ => 9) "t1" "pred-1" "abc12345" 30 ⟨[], 1, 0, 0⟩).2).2.polls =
        (⟨[], 1, 0, 0⟩ : World).polls + 2 :=
  C1_continue_not_idempotent "/videos"
    (fun _ => ⟨"pred-1", "succeeded", Val.str "https://cdn/video.mp4", Val.nul⟩)
    (fun _ => 9) "t1" "t2" "pred-1" "abc12345" "pred-1" "https://cdn/video.mp4"
    Val.nul 30 ⟨[], 1, 0, 0⟩ (by omega) rfl

/-- C2 (code bug): `SaveMetadata` replaces `metadata.yaml` wholesale, so
the completion write performed by `ContinueGeneration` erases the
submission-time fields.  On a record holding `prompt`, `model`,
`parameters` and `prediction_id`, a successful Continue leaves a record
with no `prompt`, `model` or `parameters`; only the fields of the
completion write survive.  (The completed branch of
`handleContinueOperation` in part_002 then reads `metadata["prompt"]`,
`["parameters"]` and `["model"]`, which this write has just deleted.) -/
theorem C2_completion_write_drops_submission_fields :
    let w0 : World :=
      ⟨[("abc12345", .yamlMap
          [("operation", Val.str "text_to_video"), ("model", Val.str "wan-t2v-fast"),
           ("model_id", Val.str "wan-video/wan-2.2-t2v-fast"), ("prompt", Val.str "a cat"),
           ("parameters", Val.obj [("prompt", Val.str "a cat")]),
           ("prediction_id", Val.str "pred-1"), ("status", Val.str "starting"),
           ("generated_at", Val.str "t0")])], 0, 0, 0⟩
    let w1 := (continueGeneration "/videos"
      (fun _ => ⟨"pred-1", "succeeded", Val.str "https://cdn/video.mp4", Val.nul⟩)
      (fun _ => 9) "t1" "pred-1" "abc12345" 30 w0).2
    ∃ m, lookupRecord "abc12345" w1.records = some (.yamlMap m) ∧
      lookupKey "prompt" m = none ∧
      lookupKey "model" m = none ∧
      lookupKey "parameters" m = none ∧
      lookupKey "status" m = some (Val.str "completed") ∧
      lookupKey "prediction_id" m = some (Val.str "pred-1") := by
  exact ⟨_, rfl, rfl, rfl, rfl, rfl, rfl⟩

lemma ne_of_head_ne (s t : String) (c c' : Char)
    (hs : s.data.head? = some c) (ht : t.data.head? = some c') (hcc : c ≠ c') :
    s ≠ t := by
  intro h
  rw [h] at hs
  rw [hs] at ht
  exact hcc (Option.some.inj ht)

/-- C4 counterexample: the claim requires the billing error to be
distinguishable from a generic submission error "by type or tag (not
merely by message text)".  But every error on these paths is built by a
non-wrapping `fmt.Errorf`, so a concrete 402 response and a concrete 500
response produce errors with the *same* Go dynamic type
(`*errors.errorString`); only their message texts differ. -/
theorem C4_counterexample :
    (createPredictionError 402 "\x7b\"detail\":\"Insufficient credit.\"\x7d"
        (some [("detail", Val.str "Insufficient credit.")])).map GoErrorVal.typeName =
      (createPredictionError 500 "Internal server error" none).map GoErrorVal.typeName ∧
    (createPredictionError 402 "\x7b\"detail\":\"Insufficient credit.\"\x7d"
        (some [("detail", Val.str "Insufficient credit.")])).map GoErrorVal.message ≠
      (createPredictionError 500 "Internal server error" none).map GoErrorVal.message := by
  exact ⟨rfl, by decide⟩

/-- C4 (corrected): a 402 submission response fails with an error whose
message is `billing issue: <detail>`, preserving the provider's detail
string verbatim, and that message always differs from the generic
`API error (status N): ...` message of other non-2xx responses — but the
two errors share the same Go dynamic type, so they are distinguishable
only by message text, not by type or tag. -/
theorem C4_billing_error (d raw raw2 : String) (code : Nat) (parsed2 : Option Meta)
    (h402 : code ≠ 402) (h201 : code ≠ 201) (h200 : code ≠ 200) :
    ∃ eb eg,
      createPredictionError 402 raw (some [("detail", Val.str d)]) = some eb ∧
      createPredictionError code raw2 parsed2 = some eg ∧
      eb.message = "billing issue: " ++ d ∧
      eg.message = "API error (status " ++ toString code ++ "): " ++ raw2 ∧
      eb.typeName = eg.typeName ∧
      eb.message ≠ eg.message := by
  have hg : createPredictionError code raw2 parsed2 =
      some ⟨goErrorStringType, "API error (status " ++ toString code ++ "): " ++ raw2⟩ := by
    unfold createPredictionError
    rw [if_neg h402, if_neg (fun h => h.elim h201 h200)]
  refine ⟨_, _, rfl, hg, rfl, rfl, rfl, ?_⟩
  exact ne_of_head_ne _ _ 'b' 'A' rfl rfl (by decide)

/-- Witness for C4's amended statement: detail "Insufficient credit." on
a 402 versus a plain 500 failure. -/
theorem C4_witness :
    ∃ eb eg,
      createPredictionError 402 "\x7b\"detail\":\"Insufficient credit.\"\x7d"
        (some [("detail", Val.str "Insufficient credit.")]) = some eb ∧
      createPredictionError 500 "Internal server error" none = some eg ∧
      eb.message = "billing issue: " ++ "Insufficient credit." ∧
      eg.message = "API error (status " ++ toString 500 ++ "): " ++ "Internal server error" ∧
      eb.typeName = eg.typeName ∧
      eb.message ≠ eg.message :=
  C4_billing_error "Insufficient credit."
    "\x7b\"detail\":\"Insufficient credit.\"\x7d" "Internal server error" 500 none
    (by decide) (by decide) (by decide)

/-- C6 counterexample: two Submit calls whose fresh UUIDs differ but share
their first 8 hex digits produce the *same* local id — uniqueness of the
8-character token is only probabilistic, not guaranteed. -/
theorem C6_counterexample :
    let create : String → Meta → Prediction := fun _ _ => ⟨"pr-1", "starting", .nul, .nul⟩
    let params : VideoParamsM := ⟨"a cat", "wan-t2v-fast", "", "", "", 0⟩
    let u1 := "aaaaaaaa-1111-4111-8111-111111111111"
    let u2 := "aaaaaaaa-2222-4222-8222-222222222222"
    let r1 := generateTextToVideo create u1 "t0" params (⟨[], 0, 0, 0⟩ : World)
    let r2 := generateTextToVideo create u2 "t0" params r1.2
    u1 ≠ u2 ∧
    ∃ v1 v2, r1.1 = .ok v1 ∧ r2.1 = .ok v2 ∧ v1.id = v2.id := by
  exact ⟨by decide, _, _, rfl, rfl, rfl⟩

/-- C6 (corrected): `GenerateTextToVideo` returns a local id of exactly 8
characters taken from the freshly drawn UUID (dashes removed), performs
exactly one `CreatePrediction` network round trip, and never polls or
waits for completion — but distinctness of the ids across calls holds only
when the drawn UUIDs differ in their first 8 hex digits. -/
theorem C6_submit_behavior (create : String → Meta → Prediction) (uuid now : String)
    (params : VideoParamsM) (w : World) (config : ModelConfig)
    (hm : getModelConfig params.model = some config)
    (ht : isTextToVideoModel params.model = true)
    (hu : 8 ≤ (uuid.data.filter (fun c => c != '-')).length) :
    ∃ r, (generateTextToVideo create uuid now params w).1 = .ok r ∧
      r.id = genStorageID uuid ∧
      r.id.length = 8 ∧
      r.status = (create config.id (buildTextToVideoInput params config)).status ∧
      (generateTextToVideo create uuid now params w).2.creates = w.creates + 1 ∧
      (generateTextToVideo create uuid now params w).2.polls = w.polls ∧
      (generateTextToVideo create uuid now params w).2.downloads = w.downloads := by
  have hlen : (genStorageID uuid).length = 8 := by
    simp only [genStorageID, String.length, List.length_take]
    omega
  unfold generateTextToVideo
  rw [hm, ht]
  simp only [Bool.not_true, Bool.false_eq_true, if_false, saveMetadata]
  refine ⟨_, rfl, rfl, hlen, ?_, ?_, ?_, ?_⟩ <;> trivial

/-- Witness for C6's amended statement. -/
theorem C6_witness :
    ∃ r, (generateTextToVideo (fun _ _ => ⟨"pr-1", "starting", Val.nul, Val.nul⟩)
        "0f47ae12-9c3b-4e21-8a77-3d5f0c9b1a22" "t0"
        ⟨"a cat", "wan-t2v-fast", "", "", "", 0⟩ (⟨[], 0, 0, 0⟩ : World)).1 = .ok r ∧
      r.id = genStorageID "0f47ae12-9c3b-4e21-8a77-3d5f0c9b1a22" ∧
      r.id.length = 8 ∧
      r.status = ((fun (_ : String) (_ : Meta) =>
        (⟨"pr-1", "starting", Val.nul, Val.nul⟩ : Prediction)) "x" []).status ∧
      ((generateTextToVideo (fun _ _ => ⟨"pr-1", "starting", Val.nul, Val.nul⟩)
        "0f47ae12-9c3b-4e21-8a77-3d5f0c9b1a22" "t0"
        ⟨"a cat", "wan-t2v-fast", "", "", "", 0⟩ (⟨[], 0, 0, 0⟩ : World)).2.creates =
        (⟨[], 0, 0, 0⟩ : World).creates + 1) ∧
      ((generateTextToVideo (fun _ _ => ⟨"pr-1", "starting", Val.nul, Val.nul⟩)
        "0f47ae12-9c3b-4e21-8a77-3d5f0c9b1a22" "t0"
        ⟨"a cat", "wan-t2v-fast", "", "", "", 0⟩ (⟨[], 0, 0, 0⟩ : World)).2.polls =
        (⟨[], 0, 0, 0⟩ : World).polls) ∧
      ((generateTextToVideo (fun _ _ => ⟨"pr-1", "starting", Val.nul, Val.nul⟩)
        "0f47ae12-9c3b-4e21-8a77-3d5f0c9b1a22" "t0"
        ⟨"a cat", "wan-t2v-fast", "", "", "", 0⟩ (⟨[], 0, 0, 0⟩ : World)).2.downloads =
        (⟨[], 0, 0, 0⟩ : World).downloads) :=
  C6_submit_behavior (fun _ _ => ⟨"pr-1", "starting", Val.nul, Val.nul⟩)
    "0f47ae12-9c3b-4e21-8a77-3d5f0c9b1a22" "t0"
    ⟨"a cat", "wan-t2v-fast", "", "", "", 0⟩ ⟨[], 0, 0, 0⟩
    ⟨"wan-video/wan-2.2-t2v-fast", "Wan 2.2 Fast Text-to-Video", "t2v", "480p", 0,
      ["fast", "affordable", "go_fast"]⟩ rfl rfl (by decide)
